import Mathlib

/-!
Verification of the `workerpool` package (generic retrying worker pool).

Shallow embedding notes:
* `time.Duration` is Go's `int64` nanoseconds; we model delays as `Int` and
  model Go's 64-bit two's-complement wraparound explicitly with `wrap64`.
* A job's `work` function is modelled as `Nat → Except ε α` giving the outcome
  of each invocation: invocation number `n` happens when the job's `attempt`
  field equals `n` (the pool increments `attempt` once per retry).
* The sequential execution of one job through `workerLoop`/`retryJob`
  (ignoring real time) is `runJobFrom`; `fuel` bounds the number of attempts
  we unfold, which is needed because `maxRetries < 0` means unlimited retries.
* Go slices are modelled as `List`; writing `s[i] = x` on a slice panics when
  `i ≥ len(s)`, modelled by `setIdx` returning `none`.
-/

namespace Workerpool

/-- Go `Result[T]` struct: `{ Val T; Err error }`.  `err = none` means the
`error` field is nil. -/
structure GoResult (ε α : Type) where
  val : α
  err : Option ε
deriving DecidableEq

/-- Go `Job[T]`: the work function, the mutable `attempt` counter (starts at
0, only ever incremented), the retry policy and backoff bounds.  The result
channel is not part of the data model here; result delivery is modelled by
the execution functions below. -/
structure Job (ε α : Type) where
  work : Nat → Except ε α
  attempt : Nat
  maxRetries : Int
  baseDelay : Int
  maxDelay : Int

/-- Source `NewJob`: attempt = 0, given policy. -/
def NewJob (maxRetries : Int) (baseDelay maxDelay : Int)
    (work : Nat → Except ε α) : Job ε α :=
  { work := work, attempt := 0, maxRetries := maxRetries,
    baseDelay := baseDelay, maxDelay := maxDelay }

/-- Source `NewJobWithDefaults`: maxRetries=3, baseDelay=100ms, maxDelay=5s
(durations in nanoseconds, as Go `time.Duration`). -/
def NewJobWithDefaults (work : Nat → Except ε α) : Job ε α :=
  NewJob 3 100000000 5000000000 work

/-- Source `NewSingleShotJob`: exactly as in the source, `maxRetries: 1` and zero
delays. -/
def NewSingleShotJob (work : Nat → Except ε α) : Job ε α :=
  { work := work, attempt := 0, maxRetries := 1, baseDelay := 0, maxDelay := 0 }

/-- Source `Job.shouldRetry`: `maxRetries < 0 || attempt < maxRetries`, evaluated at
a given value of the attempt counter. -/
def shouldRetryAt (maxRetries : Int) (attempt : Nat) : Bool :=
  maxRetries < 0 || (attempt : Int) < maxRetries

/-- The method form, exactly the source predicate on the job's current
`attempt` field. -/
def Job.shouldRetry (j : Job ε α) : Bool :=
  shouldRetryAt j.maxRetries j.attempt

/-- Go `Batch[T]`: ordered jobs plus one shared retry policy. -/
structure Batch (ε α : Type) where
  jobs : List (Job ε α)
  maxRetries : Int
  baseDelay : Int
  maxDelay : Int

/-- Source `NewBatch(size, maxRetries, baseDelay, maxDelay)`: the source constructs
the struct with only the three policy fields; `jobs` is the zero value (nil)
and the `size` argument is not used at all. -/
def NewBatch (size : Nat) (maxRetries : Int) (baseDelay maxDelay : Int) :
    Batch ε α :=
  let _ := size
  { jobs := [], maxRetries := maxRetries, baseDelay := baseDelay,
    maxDelay := maxDelay }

/-- Source `Batch.Add`: appends `NewJob` built from the batch policy. -/
def Batch.Add (b : Batch ε α) (work : Nat → Except ε α) : Batch ε α :=
  { b with jobs := b.jobs ++ [NewJob b.maxRetries b.baseDelay b.maxDelay work] }

/-! ### Sequential execution of one job (workerLoop + retryJob, no shutdown)

`runJobFrom outcomes mr a fuel` runs the job whose `attempt` field is `a`:
the worker executes `outcomes a`; on success it delivers `ok v` after this
single invocation; on failure it consults `shouldRetryAt mr a` — if true the
scheduler increments `attempt` and resubmits (next invocation uses `a+1`),
otherwise the error is delivered as is.  The invocation count is returned
alongside the terminal result.  `fuel` bounds the unfolding; `none` means
fuel ran out before a terminal result (only possible when more than `fuel`
attempts are needed). -/
def runJobFrom (outcomes : Nat → Except ε α) (mr : Int) :
    Nat → Nat → Option (Except ε α × Nat)
  | _, 0 => none
  | a, fuel + 1 =>
    match outcomes a with
    | Except.ok v => some (Except.ok v, 1)
    | Except.error e =>
      if shouldRetryAt mr a then
        match runJobFrom outcomes mr (a + 1) fuel with
        | some (r, n) => some (r, n + 1)
        | none => none
      else
        some (Except.error e, 1)

/-- Run a freshly constructed job (attempt = 0). -/
def runJob (outcomes : Nat → Except ε α) (mr : Int) (fuel : Nat) :
    Option (Except ε α × Nat) :=
  runJobFrom outcomes mr 0 fuel

/-- Run a `Job` value from its current state. -/
def runJobModel (j : Job ε α) (fuel : Nat) : Option (Except ε α × Nat) :=
  runJobFrom j.work j.maxRetries j.attempt fuel

/-! ### Attempt-count lemmas -/

theorem shouldRetryAt_nonneg (k : Nat) (a : Nat) :
    shouldRetryAt (k : Int) a = decide (a < k) := by
  unfold shouldRetryAt
  by_cases h : a < k
  all_goals simp [h]

theorem runJobFrom_count_le (outcomes : Nat → Except ε α) (k : Nat) :
    ∀ fuel a r n, runJobFrom outcomes (k : Int) a fuel = some (r, n) →
      n ≤ (k - a) + 1 := by
  intro fuel
  induction fuel with
  | zero => intro a r n h; simp [runJobFrom] at h
  | succ f ih =>
    intro a r n h
    rw [runJobFrom] at h
    cases ho : outcomes a with
    | ok v =>
      rw [ho] at h
      simp at h
      omega
    | error e =>
      rw [ho] at h
      by_cases hr : a < k
      · rw [shouldRetryAt_nonneg] at h
        simp [hr] at h
        cases hin : runJobFrom outcomes (k : Int) (a + 1) f with
        | none => rw [hin] at h; simp at h
        | some p =>
          rw [hin] at h
          simp at h
          have := ih (a + 1) p.1 p.2 (by rw [hin])
          omega
      · rw [shouldRetryAt_nonneg] at h
        simp [hr] at h
        omega

theorem runJobFrom_all_fail (outcomes : Nat → Except ε α) (k : Nat)
    (hall : ∀ i, ∃ e, outcomes i = Except.error e) :
    ∀ fuel a, (k - a) + 1 ≤ fuel →
      ∃ e, runJobFrom outcomes (k : Int) a fuel =
        some (Except.error e, (k - a) + 1) := by
  intro fuel
  induction fuel with
  | zero => intro a h; omega
  | succ f ih =>
    intro a h
    obtain ⟨e, he⟩ := hall a
    by_cases hr : a < k
    · have hf : (k - (a + 1)) + 1 ≤ f := by omega
      obtain ⟨e2, he2⟩ := ih (a + 1) hf
      refine ⟨e2, ?_⟩
      rw [runJobFrom, he, shouldRetryAt_nonneg]
      simp [hr, he2]
      omega
    · refine ⟨e, ?_⟩
      rw [runJobFrom, he, shouldRetryAt_nonneg]
      simp [hr]
      omega

theorem runJobFrom_last_error (outcomes : Nat → Except ε α) (mr : Int) :
    ∀ fuel a e n, runJobFrom outcomes mr a fuel = some (Except.error e, n) →
      1 ≤ n ∧ outcomes (a + n - 1) = Except.error e := by
  intro fuel
  induction fuel with
  | zero => intro a e n h; simp [runJobFrom] at h
  | succ f ih =>
    intro a e n h
    rw [runJobFrom] at h
    cases ho : outcomes a with
    | ok v => rw [ho] at h; simp at h
    | error e0 =>
      rw [ho] at h
      by_cases hr : shouldRetryAt mr a
      · simp [hr] at h
        cases hin : runJobFrom outcomes mr (a + 1) f with
        | none => rw [hin] at h; simp at h
        | some p =>
          obtain ⟨e1, n1⟩ := p
          rw [hin] at h
          simp at h
          obtain ⟨hp, hn⟩ := h
          obtain ⟨h1, h2⟩ := ih (a + 1) e n1 (by rw [hin, hp])
          constructor
          · omega
          · have hidx : a + 1 + n1 - 1 = a + n - 1 := by omega
            rw [← hidx]
            exact h2
      · simp [hr] at h
        refine ⟨by omega, ?_⟩
        have : a + n - 1 = a := by omega
        rw [this, ho, h.1]

/-! ### Backoff delay (retryJob)

`time.Duration` is `int64`.  `job.baseDelay * (1 << (job.attempt - 1))` is
computed in 64-bit two's complement: the non-constant shift `1 << s` of an
`int64` `1` yields `2^s` wrapped to 64 bits (and `0` for `s ≥ 64`, which is
also what wrapping gives), and the product wraps likewise.  `wrap64`
reduces an integer to the representative in `[-2^63, 2^63)`. -/
def wrap64 (x : Int) : Int := (x + 2 ^ 63) % 2 ^ 64 - 2 ^ 63

/-- The delay computed by `retryJob` after `attempt` has been incremented to
the given value (always ≥ 1 on this code path):
`delay := baseDelay * (1 << (attempt-1)); delay = min(delay, maxDelay)`. -/
def retryDelay (baseDelay maxDelay : Int) (attempt : Nat) : Int :=
  min (wrap64 (baseDelay * wrap64 (2 ^ (attempt - 1)))) maxDelay

/-- The spec's formula, read over unbounded integers:
`delay = min(baseDelay * 2^(attempt-1), maxDelay)`. -/
def retryDelaySpec (baseDelay maxDelay : Int) (attempt : Nat) : Int :=
  min (baseDelay * 2 ^ (attempt - 1)) maxDelay

theorem wrap64_sub_mul (p m : Int) : wrap64 (p - 2 ^ 64 * m) = wrap64 p := by
  unfold wrap64
  omega

theorem wrap64_mul_wrap (a b : Int) : wrap64 (a * wrap64 b) = wrap64 (a * b) := by
  have h : wrap64 b = b - 2 ^ 64 * ((b + 2 ^ 63) / 2 ^ 64) := by
    unfold wrap64
    omega
  have h2 : a * wrap64 b = a * b - 2 ^ 64 * (a * ((b + 2 ^ 63) / 2 ^ 64)) := by
    rw [h]
    ring
  rw [h2, wrap64_sub_mul]

/-! ### CollectBatch

Go slices are `List`s; `setIdx l i x` models the statement `l[i] = x`, which
panics when `i ≥ len(l)`.  `CollectBatch` builds
`vals := make([]T, 0, n)` and `errs := make([]error, 0, n)` — both of
LENGTH 0 — then loops over the jobs in submission order, selecting between
the job's result channel and the pool's stop channel.

The terminal results the jobs would deliver are abstracted as a list of
`GoResult` (one per job, in submission order); the moment shutdown wins the
select is abstracted as `stopAt : Option Nat` — `some i` means the stop
branch is taken at loop index `i` (stop is never observed when `none`). -/
inductive CErr (ε : Type) where
  | work (e : ε)
  | shuttingDown
deriving DecidableEq

inductive CollectOut (ε α : Type) where
  | panics (outOfRangeIdx : Nat)  -- runtime error: index out of range at this index
  | ret (vals : List α) (errs : List (Option (CErr ε)))
deriving DecidableEq

def setIdx (l : List α) (i : Nat) (x : α) : Option (List α) :=
  if i < l.length then some (l.set i x) else none

def collectFrom (stopAt : Option Nat) :
    Nat → List α → List (Option (CErr ε)) → List (GoResult ε α) →
      CollectOut ε α
  | _, vals, errs, [] => CollectOut.ret vals errs
  | i, vals, errs, r :: rest =>
    if stopAt = some i then
      CollectOut.ret [] [some CErr.shuttingDown]
    else
      match r.err with
      | some e =>
        match setIdx errs i (some (CErr.work e)) with
        | some errs2 => collectFrom stopAt (i + 1) vals errs2 rest
        | none => CollectOut.panics i
      | none =>
        match setIdx vals i r.val with
        | some vals2 => collectFrom stopAt (i + 1) vals2 errs rest
        | none => CollectOut.panics i

/-- Source `CollectBatch` as written in the source: both accumulators start as
zero-length slices. -/
def collectGo (results : List (GoResult ε α)) (stopAt : Option Nat) :
    CollectOut ε α :=
  collectFrom stopAt 0 [] [] results

/-! ### Per-job lifecycle under the pool, including shutdown

One job's trip through `Submit`, the work queue, `workerLoop` and
`retryJob`, viewed as a labelled transition system.  The state records the
job's phase, its `attempt` field, how many `Result` values have been sent on
its `chResult` (`writes`), and whether `close(chStop)` has happened
(`stopped`).  Each constructor is one of the concurrency events the source
allows:

* `stop`          — `Close` closes `chStop`;
* `enqueue`       — `Submit`'s select sends the job on `chWork` (possible
                    even after shutdown, when both select cases are ready);
* `dropAtSubmit`  — `Submit`'s select takes the `<-chStop` case: the job is
                    silently dropped;
* `dequeue`       — a worker receives the job from `chWork`;
* `succeed`       — `work` returns nil error: the worker sends the value on
                    `chResult`;
* `failTerminal`  — `work` fails and `shouldRetry()` is false: the worker
                    sends the error on `chResult`;
* `failRetry`     — `work` fails and `shouldRetry()` is true: `retryJob`
                    increments `attempt` and arms a timer goroutine;
* `timerFire`     — the retry timer fires and the goroutine calls `Submit`;
* `timerDrop`     — the retry timer goroutine observes `<-chStop` and
                    returns without resubmitting and without writing.

A job stuck in the queue after shutdown simply has no further transitions. -/
inductive Phase where
  | submitted
  | queued
  | running
  | retryWait
  | dropped
  | done
deriving DecidableEq

structure LifeState where
  phase : Phase
  attempt : Nat
  writes : Nat
  stopped : Bool
deriving DecidableEq

inductive LifeStep (mr : Int) : LifeState → LifeState → Prop where
  | stop (s : LifeState) : s.stopped = false →
      LifeStep mr s { s with stopped := true }
  | enqueue (s : LifeState) : s.phase = Phase.submitted →
      LifeStep mr s { s with phase := Phase.queued }
  | dropAtSubmit (s : LifeState) : s.phase = Phase.submitted →
      s.stopped = true → LifeStep mr s { s with phase := Phase.dropped }
  | dequeue (s : LifeState) : s.phase = Phase.queued →
      LifeStep mr s { s with phase := Phase.running }
  | succeed (s : LifeState) : s.phase = Phase.running →
      LifeStep mr s { s with phase := Phase.done, writes := s.writes + 1 }
  | failTerminal (s : LifeState) : s.phase = Phase.running →
      shouldRetryAt mr s.attempt = false →
      LifeStep mr s { s with phase := Phase.done, writes := s.writes + 1 }
  | failRetry (s : LifeState) : s.phase = Phase.running →
      shouldRetryAt mr s.attempt = true →
      LifeStep mr s { s with phase := Phase.retryWait, attempt := s.attempt + 1 }
  | timerFire (s : LifeState) : s.phase = Phase.retryWait →
      LifeStep mr s { s with phase := Phase.submitted }
  | timerDrop (s : LifeState) : s.phase = Phase.retryWait →
      s.stopped = true → LifeStep mr s { s with phase := Phase.dropped }

/-- The job as handed to `Submit`: fresh, attempt 0, nothing written, pool
not yet shut down. -/
def initLife : LifeState :=
  { phase := Phase.submitted, attempt := 0, writes := 0, stopped := false }

inductive ReachableLife (mr : Int) : LifeState → Prop where
  | init : ReachableLife mr initLife
  | step {s t : LifeState} : ReachableLife mr s → LifeStep mr s t →
      ReachableLife mr t

/-- Key invariant: the number of results written to the job's channel is 1
in phase `done` and 0 in every other phase — in particular at most one. -/
theorem lifeWritesInvariant (mr : Int) (s : LifeState)
    (h : ReachableLife mr s) :
    s.writes = (if s.phase = Phase.done then 1 else 0) := by
  induction h with
  | init => simp [initLife]
  | step hr hstep ih =>
    cases hstep <;> simp_all

/-! ### Submit

`Submit` is a two-way select: send on `chWork` (possible only when the
buffered queue has free space, i.e. the caller blocks while it is full) or
receive from the closed `chStop` (possible only once shutdown has been
signaled).  `SubmitOutcome stopped qlen cap r` says `Submit` can complete
with outcome `r` when the stop channel state is `stopped` and the queue
currently holds `qlen` of `cap` slots. -/
inductive SubmitRes where
  | enqueued
  | droppedJob
deriving DecidableEq

inductive SubmitOutcome : Bool → Nat → Nat → SubmitRes → Prop where
  | enq (stopped : Bool) (qlen cap : Nat) : qlen < cap →
      SubmitOutcome stopped qlen cap SubmitRes.enqueued
  | drop (qlen cap : Nat) :
      SubmitOutcome true qlen cap SubmitRes.droppedJob

/-! ### Claim theorems -/

/-- Claim C1 (code bug): the spec requires `CollectBatch` on a batch whose
jobs all reached terminal results to return two slices of length `n`,
index-aligned with submission order.  The source instead allocates both
accumulators with `make(..., 0, n)` — length 0 — and then index-assigns
`vals[i]`/`errs[i]`, which panics with index-out-of-range on the very first
collected result of any non-empty batch.  Here: a batch of one successful
job panics at index 0 instead of returning `([42], [nil])`. -/
theorem claim_C1_collect_panics_on_success :
    collectGo ([{ val := 42, err := none }] : List (GoResult Nat Nat)) none
      = CollectOut.panics 0 := rfl

/-- Claim C2 (code bug): the spec says `NewSingleShotJob` gives one attempt
and no retry, but the source sets `maxRetries: 1`, and `shouldRetry()` at
`attempt = 0` evaluates `0 < 1 = true`, so a failing single-shot job is
retried once: the work function runs exactly twice (invocation count 2),
not once. -/
theorem claim_C2_single_shot_runs_twice :
    runJobModel (NewSingleShotJob (fun _ => (Except.error 7 : Except Nat Nat))) 10
      = some (Except.error 7, 2) := rfl

/-- Claim C3 (confirmed): for every job with `maxRetries = k ≥ 0` that
reaches a terminal result, the work function runs at most `k + 1` times, and
exactly `k + 1` times when every invocation fails.  `shouldRetry` is
consulted after a failed attempt at the current (not yet incremented)
`attempt` value, giving the `k + 1` bound; in particular `maxRetries = 3`
yields at most 4 executions. -/
theorem claim_C3_attempt_bound (k fuel : Nat) (outcomes : Nat → Except ε α)
    (hfuel : k + 1 ≤ fuel) :
    (∀ r n, runJob outcomes (k : Int) fuel = some (r, n) → n ≤ k + 1) ∧
    ((∀ i, ∃ e, outcomes i = Except.error e) →
      ∃ e, runJob outcomes (k : Int) fuel = some (Except.error e, k + 1)) := by
  constructor
  · intro r n h
    have := runJobFrom_count_le outcomes k fuel 0 r n h
    omega
  · intro hall
    have := runJobFrom_all_fail outcomes k hall fuel 0 (by omega)
    simpa using this

theorem claim_C3_attempt_bound_witness :
    (∀ r n, runJob (fun _ : Nat => (Except.error 0 : Except Nat Nat))
        ((3 : Nat) : Int) 4 = some (r, n) → n ≤ 4) ∧
    ((∀ i, ∃ e, (fun _ : Nat => (Except.error 0 : Except Nat Nat)) i
        = Except.error e) →
      ∃ e, runJob (fun _ : Nat => (Except.error 0 : Except Nat Nat))
        ((3 : Nat) : Int) 4 = some (Except.error e, 4)) :=
  claim_C3_attempt_bound 3 4 (fun _ => Except.error 0) (by omega)

/-- Claim C4 counterexample: the spec formula read over unbounded integers
differs from the code.  With `baseDelay = 100ms`, `maxDelay = 5s` and
`attempt = 64`, the code computes `100000000 * (1 << 63)` in 64-bit
two's-complement, which wraps to 0, so the computed delay is `min(0, 5s) = 0`,
while the exact formula gives `min(100ms * 2^63, 5s) = 5s`. -/
theorem claim_C4_delay_counterexample :
    retryDelay 100000000 5000000000 64 ≠ retryDelaySpec 100000000 5000000000 64 := by
  decide

/-- Claim C4 (corrected): the retry delay equals
`min(baseDelay * 2^(attempt-1), maxDelay)` where the product (and the shift
`1 << (attempt-1)`) is computed in 64-bit two's-complement wraparound
arithmetic, with no jitter; and it never exceeds `maxDelay`, even as
`attempt` grows unbounded (in particular under `maxRetries < 0`). -/
theorem claim_C4_delay_capped (baseDelay maxDelay : Int) (attempt : Nat) :
    retryDelay baseDelay maxDelay attempt
      = min (wrap64 (baseDelay * 2 ^ (attempt - 1))) maxDelay ∧
    retryDelay baseDelay maxDelay attempt ≤ maxDelay := by
  constructor
  · unfold retryDelay
    rw [wrap64_mul_wrap]
  · exact min_le_right _ _

theorem claim_C4_delay_capped_witness :
    retryDelay 100000000 5000000000 64
      = min (wrap64 (100000000 * 2 ^ (64 - 1))) 5000000000 ∧
    retryDelay 100000000 5000000000 64 ≤ 5000000000 :=
  claim_C4_delay_capped 100000000 5000000000 64

/-- Claim C5 counterexample: it is not true that every job reaching a
terminal phase has had exactly one `Result` written: when shutdown is
signaled while a job (here with `maxRetries = 3`, after one failed attempt)
waits in its retry timer, the timer goroutine exits without writing, the
job ends `dropped`, and zero results were ever written to its channel. -/
theorem claim_C5_counterexample :
    ¬ (∀ s : LifeState, ReachableLife 3 s →
        (s.phase = Phase.done ∨ s.phase = Phase.dropped) → s.writes = 1) := by
  intro hclaim
  have h0 : ReachableLife 3 initLife := ReachableLife.init
  have h1 : ReachableLife 3
      { phase := Phase.queued, attempt := 0, writes := 0, stopped := false } :=
    ReachableLife.step h0 (LifeStep.enqueue initLife rfl)
  have h2 : ReachableLife 3
      { phase := Phase.running, attempt := 0, writes := 0, stopped := false } :=
    ReachableLife.step h1 (LifeStep.dequeue _ rfl)
  have h3 : ReachableLife 3
      { phase := Phase.retryWait, attempt := 1, writes := 0, stopped := false } :=
    ReachableLife.step h2 (LifeStep.failRetry _ rfl (by decide))
  have h4 : ReachableLife 3
      { phase := Phase.retryWait, attempt := 1, writes := 0, stopped := true } :=
    ReachableLife.step h3 (LifeStep.stop _ rfl)
  have h5 : ReachableLife 3
      { phase := Phase.dropped, attempt := 1, writes := 0, stopped := true } :=
    ReachableLife.step h4 (LifeStep.timerDrop _ rfl rfl)
  have := hclaim _ h5 (Or.inr rfl)
  simp at this

/-- Claim C5 (corrected): over a job's whole lifetime, at most one terminal
`Result` is ever written to its result channel, and exactly one is written
precisely when the job reaches the `done` phase (success or terminal
failure); a job dropped by shutdown — at submit, in the queue, or in a
retry timer — gets zero writes. -/
theorem claim_C5_at_most_one_write (mr : Int) (s : LifeState)
    (h : ReachableLife mr s) :
    s.writes ≤ 1 ∧ (s.writes = 1 ↔ s.phase = Phase.done) := by
  have hinv := lifeWritesInvariant mr s h
  by_cases hp : s.phase = Phase.done
  · simp [hp] at hinv
    simp [hinv, hp]
  · simp [hp] at hinv
    simp [hinv, hp]

theorem claim_C5_at_most_one_write_witness :
    initLife.writes ≤ 1 ∧ (initLife.writes = 1 ↔ initLife.phase = Phase.done) :=
  claim_C5_at_most_one_write 3 initLife ReachableLife.init

/-- Claim C6 counterexample: when shutdown is observed while `CollectBatch`
waits (here at loop index 0 of a batch of two jobs), the source returns
`nil` values and a single-element error slice, so the returned error slice
has length 1, not the batch size 2, and nothing is preserved per index. -/
theorem claim_C6_counterexample :
    collectGo ([{ val := 1, err := none }, { val := 2, err := none }] :
        List (GoResult Nat Nat)) (some 0)
      = CollectOut.ret [] [some CErr.shuttingDown] ∧
    ([some CErr.shuttingDown] : List (Option (CErr Nat))).length ≠ 2 :=
  ⟨rfl, by decide⟩

/-- Claim C6 (corrected): if shutdown is signaled while `CollectBatch` is
waiting on its first not-yet-collected job, it abandons the batch and
returns a nil values slice and a single-element errors slice holding the
synthetic shutting-down error; already-collected entries are NOT preserved
(indeed, collecting any result first panics, per the sizing defect). -/
theorem claim_C6_shutdown_single_error (r : GoResult ε α)
    (rest : List (GoResult ε α)) :
    collectGo (r :: rest) (some 0)
      = CollectOut.ret [] [some CErr.shuttingDown] := by
  simp [collectGo, collectFrom]

theorem claim_C6_shutdown_single_error_witness :
    collectGo ([{ val := 5, err := none }] : List (GoResult Nat Nat)) (some 0)
      = CollectOut.ret [] [some CErr.shuttingDown] :=
  claim_C6_shutdown_single_error { val := 5, err := none } []

/-- Claim C7 (confirmed): `Submit` is a select between sending on the work
queue and the closed stop channel.  Before shutdown is signaled the only
way `Submit` can complete is by enqueueing (and only when the queue has
space — otherwise the caller stays blocked); a silent drop is possible only
after shutdown, and a job dropped that way never has a `Result` written to
its channel. -/
theorem claim_C7_submit_no_silent_drop (stopped : Bool) (qlen cap : Nat)
    (r : SubmitRes) (h : SubmitOutcome stopped qlen cap r) :
    (stopped = false → r = SubmitRes.enqueued ∧ qlen < cap) ∧
    (r = SubmitRes.droppedJob → stopped = true) ∧
    (∀ mr : Int, ∀ s : LifeState, ReachableLife mr s →
      s.phase = Phase.dropped → s.writes = 0) := by
  have hthird : ∀ mr : Int, ∀ s : LifeState, ReachableLife mr s →
      s.phase = Phase.dropped → s.writes = 0 := by
    intro mr s hs hp
    have hinv := lifeWritesInvariant mr s hs
    rw [hp] at hinv
    simpa using hinv
  cases h with
  | enq s q c hlt => exact ⟨fun _ => ⟨rfl, hlt⟩, by simp, hthird⟩
  | drop => exact ⟨by simp, fun _ => rfl, hthird⟩

theorem claim_C7_submit_no_silent_drop_witness :
    ((false = false → SubmitRes.enqueued = SubmitRes.enqueued ∧ 0 < 2) ∧
     (SubmitRes.enqueued = SubmitRes.droppedJob → false = true) ∧
     (∀ mr : Int, ∀ s : LifeState, ReachableLife mr s →
       s.phase = Phase.dropped → s.writes = 0)) :=
  claim_C7_submit_no_silent_drop false 0 2 SubmitRes.enqueued
    (SubmitOutcome.enq false 0 2 (by omega))

/-- Claim C8 (confirmed): when a job terminates with a failure, the error
delivered is exactly the error value returned by the final invocation of
the work function — the engine passes it through verbatim, never wrapping
or replacing it. -/
theorem claim_C8_error_verbatim (outcomes : Nat → Except ε α) (mr : Int)
    (fuel : Nat) (e : ε) (n : Nat)
    (h : runJob outcomes mr fuel = some (Except.error e, n)) :
    1 ≤ n ∧ outcomes (n - 1) = Except.error e := by
  have := runJobFrom_last_error outcomes mr fuel 0 e n h
  simpa using this

theorem claim_C8_error_verbatim_witness :
    1 ≤ 1 ∧ (fun _ : Nat => (Except.error 7 : Except Nat Nat)) (1 - 1)
      = Except.error 7 :=
  claim_C8_error_verbatim (fun _ => Except.error 7) 0 1 7 1 rfl

/-- Claim C9 (code bug): the spec says the only panic is the double-`Close`
misuse, but the public `CollectBatch` panics index-out-of-range in normal
operation on any non-empty batch (here: one job that failed terminally),
because both result slices are created with length 0. -/
theorem claim_C9_collect_panics_on_failure :
    collectGo ([{ val := 0, err := some 7 }] : List (GoResult Nat Nat)) none
      = CollectOut.panics 0 := rfl

/-- Claim C10 (confirmed): the `size` argument of `NewBatch` is ignored:
any two sizes with the same policy produce structurally identical batches,
whose job list is empty. -/
theorem claim_C10_size_ignored (ε α : Type) (s1 s2 : Nat) (mr bd md : Int) :
    (NewBatch s1 mr bd md : Batch ε α) = NewBatch s2 mr bd md ∧
    (NewBatch s1 mr bd md : Batch ε α).jobs = [] :=
  ⟨rfl, rfl⟩

theorem claim_C10_size_ignored_witness :
    (NewBatch 0 1 2 3 : Batch Nat Nat) = NewBatch 7 1 2 3 ∧
    (NewBatch 0 1 2 3 : Batch Nat Nat).jobs = [] :=
  claim_C10_size_ignored Nat Nat 0 7 1 2 3

end Workerpool
